import Mathlib

/-!
Shallow embedding of the authentication subsystem of the contacts-management
backend (files `app/services/auth.py`, `app/routes/auth.py`,
`app/repository/users.py`, `app/routes/contacts.py`).

Conventions of the embedding:
* Timestamps are `Int` seconds since the epoch; the current time is passed
  explicitly to every operation that reads the clock.
* A JWT is modelled as its decoded content together with the signing key and
  algorithm (`Token`): `jose.jwt.encode` is deterministic and injective for
  the fixed claim-construction order used by this code base (claims are
  written in the order sub, iat, exp, scope, and datetimes are truncated to
  whole seconds by `timegm(utctimetuple())`), so byte-for-byte equality of
  encoded token strings coincides with equality of `Token` values.
* Python exceptions are modelled with `Except`; `HTTPException` carries the
  status code and detail string (response headers are not modelled).
* Database and Redis round trips are modelled by explicit state passing.
-/

deriving instance DecidableEq for Except

namespace GoitHW11

/-- Model of `fastapi.HTTPException`: status code and detail string. -/
structure HTTPException where
  statusCode : Nat
  detail : String
deriving DecidableEq, Repr

/-- An exception escaping a route handler: a raised `HTTPException`,
passlib's `UnknownHashError` (a `ValueError`), an `AttributeError` from
reading an attribute the ORM model does not define (carrying the attribute
name), or a `TypeError` (carrying the message). All but the first surface
as unhandled 500 responses. -/
inductive PyError where
  | http (e : HTTPException)
  | unknownHash
  | attributeError (attr : String)
  | typeError (msg : String)
deriving DecidableEq, Repr

/-- The claim set every token of this code base carries:
`{"sub": ..., "iat": ..., "exp": ..., "scope": ...}`. -/
structure Payload where
  sub : String
  iat : Int
  exp : Int
  scope : String
deriving DecidableEq, Repr

/-- Model of an encoded JWT: the payload together with the signing key and
algorithm used by `jose.jwt.encode`. -/
structure Token where
  payload : Payload
  key : String
  alg : String
deriving DecidableEq, Repr

/-- Model of `jose.jwt.encode(to_encode, SECRET_KEY, algorithm=ALGORITHM)`. -/
def jwt_encode (payload : Payload) (key alg : String) : Token :=
  { payload := payload, key := key, alg := alg }

/-- Model of `jose.jwt.decode(token, SECRET_KEY, algorithms=[ALGORITHM])` at
time `now`: signature verification is key/algorithm agreement, and the `exp`
claim fails verification exactly when `exp < now` (jose with zero leeway).
Both failure modes raise `JWTError`, modelled as one error value. -/
def jwt_decode (t : Token) (key alg : String) (now : Int) : Except Unit Payload :=
  if t.key = key then
    if t.alg = alg then
      if t.payload.exp < now then .error () else .ok t.payload
    else .error ()
  else .error ()

/-- Python truthiness of the `Optional[float] expires_delta` parameter:
`None` and `0` are falsy, every other number is truthy. -/
def pyTruthy : Option Int → Bool
  | none => false
  | some d => d != 0

/-- `Auth.create_access_token` (`app/services/auth.py` lines 55-70):
scope `access_token`, default lifetime 15 minutes, an override only takes
effect when `expires_delta` is truthy. -/
def create_access_token (key alg : String) (now : Int) (sub : String)
    (expires_delta : Option Int) : Token :=
  let expire : Int :=
    if pyTruthy expires_delta then now + expires_delta.getD 0 else now + 15 * 60
  jwt_encode { sub := sub, iat := now, exp := expire, scope := "access_token" } key alg

/-- `Auth.create_refresh_token` (lines 72-87): scope `refresh_token`,
default lifetime 7 days. -/
def create_refresh_token (key alg : String) (now : Int) (sub : String)
    (expires_delta : Option Int) : Token :=
  let expire : Int :=
    if pyTruthy expires_delta then now + expires_delta.getD 0 else now + 7 * 24 * 60 * 60
  jwt_encode { sub := sub, iat := now, exp := expire, scope := "refresh_token" } key alg

/-- `Auth.create_email_token` (lines 89-107): scope `email_verification`,
default lifetime 15 minutes. -/
def create_email_token (key alg : String) (now : Int) (sub : String)
    (expires_delta : Option Int) : Token :=
  let expire : Int :=
    if pyTruthy expires_delta then now + expires_delta.getD 0 else now + 15 * 60
  jwt_encode { sub := sub, iat := now, exp := expire, scope := "email_verification" } key alg

/-- `Auth.create_reset_token` (lines 143-161): scope `password_reset`,
default lifetime 15 minutes. -/
def create_reset_token (key alg : String) (now : Int) (sub : String)
    (expires_delta : Option Int) : Token :=
  let expire : Int :=
    if pyTruthy expires_delta then now + expires_delta.getD 0 else now + 15 * 60
  jwt_encode { sub := sub, iat := now, exp := expire, scope := "password_reset" } key alg

/-- The `credentials_exception` of `Auth.get_current_user` (lines 189-193). -/
def credentials_exception : HTTPException :=
  { statusCode := 401, detail := "Could not validate credentials" }

/-- `Auth.decode_refresh_token` (lines 109-124): decode, then require scope
`refresh_token`; a scope mismatch raises 401 `Invalid scope for token`, a
`JWTError` raises 401 `Could not validate credentials`. -/
def decode_refresh_token (key alg : String) (now : Int) (token : Token) :
    Except PyError String :=
  match jwt_decode token key alg now with
  | .ok payload =>
      if payload.scope = "refresh_token" then .ok payload.sub
      else .error (.http { statusCode := 401, detail := "Invalid scope for token" })
  | .error _ =>
      .error (.http { statusCode := 401, detail := "Could not validate credentials" })

/-- `Auth.get_email_from_token` (lines 126-141): decode, then require scope
`email_verification`. -/
def get_email_from_token (key alg : String) (now : Int) (token : Token) :
    Except PyError String :=
  match jwt_decode token key alg now with
  | .ok payload =>
      if payload.scope = "email_verification" then .ok payload.sub
      else .error (.http { statusCode := 401, detail := "Invalid scope for token" })
  | .error _ =>
      .error (.http { statusCode := 401, detail := "Could not validate credentials" })

/-- `Auth.get_email_from_reset_token` (lines 163-178): decode, then require
scope `password_reset`. -/
def get_email_from_reset_token (key alg : String) (now : Int) (token : Token) :
    Except PyError String :=
  match jwt_decode token key alg now with
  | .ok payload =>
      if payload.scope = "password_reset" then .ok payload.sub
      else .error (.http { statusCode := 401, detail := "Invalid scope for token" })
  | .error _ =>
      .error (.http { statusCode := 401, detail := "Could not validate credentials" })

/-- The decode step of `Auth.get_current_user` (lines 195-202): decode, then
require scope `access_token`; both a `JWTError` and a scope mismatch raise
the same generic `credentials_exception`. -/
def decode_access_token (key alg : String) (now : Int) (token : Token) :
    Except PyError String :=
  match jwt_decode token key alg now with
  | .ok payload =>
      if payload.scope = "access_token" then .ok payload.sub
      else .error (.http credentials_exception)
  | .error _ => .error (.http credentials_exception)

/-- The four token scopes of the system, pairing each issuing operation of
`app/services/auth.py` with the verifying operation that expects it. -/
inductive Scope where
  | access
  | refresh
  | email_verification
  | password_reset
deriving DecidableEq, Repr

/-- The issuing operation of each scope. -/
def issue_for : Scope → String → String → Int → String → Option Int → Token
  | .access => create_access_token
  | .refresh => create_refresh_token
  | .email_verification => create_email_token
  | .password_reset => create_reset_token

/-- The verifying operation that expects each scope. -/
def verify_for : Scope → String → String → Int → Token → Except PyError String
  | .access => decode_access_token
  | .refresh => decode_refresh_token
  | .email_verification => get_email_from_token
  | .password_reset => get_email_from_reset_token

/-- The error each verifier raises when the decoded `scope` claim differs
from the one it expects: the access-token verifier inside `get_current_user`
raises its generic `credentials_exception`, the three dedicated decoders
raise 401 `Invalid scope for token`. -/
def scope_mismatch_error : Scope → HTTPException
  | .access => credentials_exception
  | .refresh => { statusCode := 401, detail := "Invalid scope for token" }
  | .email_verification => { statusCode := 401, detail := "Invalid scope for token" }
  | .password_reset => { statusCode := 401, detail := "Invalid scope for token" }

/-- The bcrypt version/cost prefix of every hash produced by
`CryptContext(schemes=["bcrypt"])`. -/
def BCRYPT_PREFIX : String := "$2b$12$"

/-- A hash string that passlib can identify as belonging to the configured
bcrypt scheme: it starts with the bcrypt prefix. -/
def is_bcrypt_hash (h : String) : Bool := BCRYPT_PREFIX.data.isPrefixOf h.data

/-- Model of `pwd_context.hash` (`Auth.get_password_hash`, lines 46-53):
bcrypt is abstracted to an injective tagging of the password with the bcrypt
prefix, which preserves the verification semantics (`verify(p, hash(p))` is
true, `verify(p, hash(q))` is false for `p ≠ q`, and the output is
identifiable as a bcrypt hash). -/
def get_password_hash (password : String) : String := BCRYPT_PREFIX ++ password

/-- Model of `pwd_context.verify`: passlib's `CryptContext.verify` returns
the boolean comparison result for an identifiable bcrypt hash and raises
`UnknownHashError` (a `ValueError`) when the hash string cannot be
identified as any configured scheme. -/
def pwd_context_verify (plain hashed : String) : Except PyError Bool :=
  if is_bcrypt_hash hashed then .ok (hashed == get_password_hash plain)
  else .error .unknownHash

/-- `Auth.verify_password` (lines 36-44): a direct delegation to
`pwd_context.verify`, with no exception handling of its own. -/
def verify_password (plain hashed : String) : Except PyError Bool :=
  pwd_context_verify plain hashed

/-- The `users` table record with exactly the columns `app/models/users.py`
maps: `id`, `email`, `password`, `created_at`, `avatar`, `refresh_token`
(the nullable mirrored current refresh token). The route layer also reads
`user.username` and `user.email_verified`, but the model defines no such
columns, so those reads raise `AttributeError`; they are modelled by
`user_username` and `user_email_verified` below. -/
structure User where
  id : Nat
  email : String
  password : String
  created_at : Int
  avatar : Option String
  refresh_token : Option Token
deriving DecidableEq, Repr

/-- The attribute read `user.username`: `app/models/users.py` defines no
`username` column, so the read raises `AttributeError`. -/
def user_username (u : User) : Except PyError String :=
  .error (.attributeError "username")

/-- The attribute read `user.email_verified`: `app/models/users.py` defines
no `email_verified` column, so the read raises `AttributeError`. -/
def user_email_verified (u : User) : Except PyError Bool :=
  .error (.attributeError "email_verified")

/-- The user table, ordered as the database returns rows; emails are unique
per the schema, and lookups take the first match. -/
abbrev Db := List User

/-- `repository_users.get_user_by_email` (lines 11-24):
`select(User).filter_by(email=email)`, one row or none. -/
def get_user_by_email (email : String) (db : Db) : Option User :=
  db.find? (fun u => u.email == email)

/-- `repository_users.update_token` (lines 51-62): set `user.refresh_token`
and commit; the mutated row is the one with the user's email. -/
def update_token (email : String) (token : Option Token) (db : Db) : Db :=
  db.map (fun u => if u.email == email then { u with refresh_token := token } else u)

/-- `repository_users.update_password` (lines 99-110): set `user.password`
and commit. -/
def update_password (email : String) (new_password : String) (db : Db) : Db :=
  db.map (fun u => if u.email == email then { u with password := new_password } else u)

/-- The profile projection cached in Redis under `user:{email}`: the JSON
object `{"id", "username", "email", "avatar"}` built by `login` and
`get_current_user`. -/
structure CachedUser where
  id : Nat
  username : String
  email : String
  avatar : Option String
deriving DecidableEq, Repr

/-- The Redis key/value store as used for profiles: entries carry the key,
the cached projection, and the absolute expiry time (`SET ... ex=3600`).
Later `SET`s are consed to the front, so a lookup takes the newest entry. -/
abbrev Cache := List (String × CachedUser × Int)

/-- Redis `GET`: the newest entry for the key, or nothing once its TTL has
elapsed (a key expires `ex` seconds after it was set). -/
def redis_get (cache : Cache) (key : String) (now : Int) : Option CachedUser :=
  match cache.find? (fun e => e.1 == key) with
  | some e => if now < e.2.2 then some e.2.1 else none
  | none => none

/-- Redis `SET key value ex=ttl` at time `now`. -/
def redis_set (cache : Cache) (key : String) (v : CachedUser) (expiry : Int) : Cache :=
  (key, v, expiry) :: cache

/-- Building the dict `{"id": user.id, "username": user.username, "email":
user.email, "avatar": user.avatar}` that `login` and `get_current_user`
cache: evaluating `user.username` raises `AttributeError`, so the dict is
never produced. -/
def user_projection (u : User) : Except PyError CachedUser :=
  match user_username u with
  | .error e => .error e
  | .ok un => .ok { id := u.id, username := un, email := u.email, avatar := u.avatar }

/-- The constructor call `User(**user_data)` on the cached dict
(`app/services/auth.py` line 213): the dict carries a `username` key and
the model maps no such column, so SQLAlchemy raises `TypeError`. -/
def user_from_kwargs (cu : CachedUser) : Except PyError User :=
  .error (.typeError "username is an invalid keyword argument for User")

/-- The expression `await x` applied to the plain string returned by the
synchronous `get_email_from_reset_token` (`app/routes/auth.py` line 179):
Python raises `TypeError` because a `str` is not awaitable. -/
def await_str (s : String) : Except PyError String :=
  .error (.typeError "str cannot be used in await expression")

/-- The `login` route (`app/routes/auth.py` lines 48-91): look the user up
by email (401 `Invalid credentials` if absent); then evaluate
`if not user.email_verified:` — the read raises `AttributeError` for every
existing user, so the remainder of the handler (the `Email not confirmed`
branch, password verification, token minting, the refresh-token commit and
the cache write, lines 63-91) is embedded but unreachable. -/
def login (key alg : String) (now : Int) (username password : String)
    (db : Db) (cache : Cache) :
    Except PyError (Token × Token) × Db × Cache :=
  match get_user_by_email username db with
  | none =>
      (.error (.http { statusCode := 401, detail := "Invalid credentials" }), db, cache)
  | some user =>
      match user_email_verified user with
      | .error e => (.error e, db, cache)
      | .ok verified =>
          if !verified then
            (.error (.http { statusCode := 401, detail := "Email not confirmed" }),
             db, cache)
          else
            match verify_password password user.password with
            | .error e => (.error e, db, cache)
            | .ok ok =>
                if !ok then
                  (.error (.http { statusCode := 401, detail := "Invalid credentials" }),
                   db, cache)
                else
                  let access_tok := create_access_token key alg now user.email none
                  let refresh_tok := create_refresh_token key alg now user.email none
                  match user_projection user with
                  | .error e =>
                      (.error e, update_token user.email (some refresh_tok) db, cache)
                  | .ok proj =>
                      (.ok (access_tok, refresh_tok),
                       update_token user.email (some refresh_tok) db,
                       redis_set cache ("user:" ++ user.email) proj (now + 3600))

/-- The `refresh_token` route (`app/routes/auth.py` lines 94-121): decode
the presented token with expected scope `refresh_token`; look the user up by
the decoded subject (401 `Invalid refresh token` if absent); if the stored
refresh token differs from the presented one, clear the stored token and
fail with 401 `Invalid refresh token`; otherwise mint a fresh pair and store
the new refresh token. The updated table is returned alongside the response
because the clearing commit happens before the exception is raised. -/
def refresh_token_route (key alg : String) (now : Int) (token : Token) (db : Db) :
    Except PyError (Token × Token) × Db :=
  match decode_refresh_token key alg now token with
  | .error e => (.error e, db)
  | .ok email =>
      match get_user_by_email email db with
      | none =>
          (.error (.http { statusCode := 401, detail := "Invalid refresh token" }), db)
      | some user =>
          if user.refresh_token ≠ some token then
            (.error (.http { statusCode := 401, detail := "Invalid refresh token" }),
             update_token user.email none db)
          else
            let access_tok := create_access_token key alg now user.email none
            let refresh_tok := create_refresh_token key alg now user.email none
            (.ok (access_tok, refresh_tok),
             update_token user.email (some refresh_tok) db)

/-- `Auth.get_current_user` (`app/services/auth.py` lines 180-230): decode
the access token; try the Redis cache under `user:{email}`. On a hit,
`User(**user_data)` raises `TypeError` (the dict's `username` key is not a
column). On a miss, load from the database (raising the generic
`credentials_exception` if the user is gone); building the dict to cache
then raises `AttributeError` at `user.username` before the `SET`, so the
cache is never populated and the row is never returned. `dbCalls` counts
the `get_user_by_email` round trips, modelling a call-count test double on
the user directory. -/
def get_current_user (key alg : String) (now : Int) (token : Token)
    (db : Db) (cache : Cache) (dbCalls : Nat) :
    Except PyError User × Cache × Nat :=
  match decode_access_token key alg now token with
  | .error e => (.error e, cache, dbCalls)
  | .ok email =>
      match redis_get cache ("user:" ++ email) now with
      | some cached =>
          match user_from_kwargs cached with
          | .error e => (.error e, cache, dbCalls)
          | .ok user => (.ok user, cache, dbCalls)
      | none =>
          match get_user_by_email email db with
          | none => (.error (.http credentials_exception), cache, dbCalls + 1)
          | some user =>
              match user_projection user with
              | .error e => (.error e, cache, dbCalls + 1)
              | .ok proj =>
                  (.ok user,
                   redis_set cache ("user:" ++ user.email) proj (now + 3600),
                   dbCalls + 1)

/-- A password-reset email handed to the background dispatcher:
`send_password_reset_email_service(user.email, user.username, base_url,
token_reset)` (the base URL is not modelled). -/
structure EmailDispatch where
  recipient : String
  username : String
  token : Token
deriving DecidableEq, Repr

/-- The `request_password_reset` route (`app/routes/auth.py` lines
151-168): when the user exists, mint a password-reset token and enqueue the
reset email — but evaluating the `add_task` argument `user.username` (line
164) raises `AttributeError` before the task is enqueued, so the
existing-email branch crashes instead of answering; a non-existing email
gets the generic success message. The second component lists the enqueued
email sends. -/
def request_password_reset (key alg : String) (now : Int) (email : String) (db : Db) :
    Except PyError String × List EmailDispatch :=
  match get_user_by_email email db with
  | some user =>
      match user_username user with
      | .error e => (.error e, [])
      | .ok un =>
          (.ok "If a user with this email exists, a password reset token has been sent.",
           [{ recipient := user.email, username := un,
              token := create_reset_token key alg now user.email none }])
  | none =>
      (.ok "If a user with this email exists, a password reset token has been sent.", [])

/-- The `reset_password` route (`app/routes/auth.py` lines 171-191): line
179 is `email = await auth_service.get_email_from_reset_token(body.token)`,
but `get_email_from_reset_token` is a synchronous function — an invalid
token still raises its `HTTPException` inside the call, while a valid token
returns a `str` whose `await` raises `TypeError`, so the lookup, hashing
and `update_password` commit (lines 180-191) are embedded but unreachable. -/
def reset_password (key alg : String) (now : Int) (token : Token)
    (new_password : String) (db : Db) :
    Except PyError String × Db :=
  match get_email_from_reset_token key alg now token with
  | .error e => (.error e, db)
  | .ok email =>
      match await_str email with
      | .error e => (.error e, db)
      | .ok email =>
          match get_user_by_email email db with
          | none => (.error (.http { statusCode := 400, detail := "Invalid token" }), db)
          | some user =>
              (.ok "Password has been successfully reset.",
               update_password user.email (get_password_hash new_password) db)

/-- The Redis rate-limit counter for one client key: `none` when the key is
absent, otherwise the count with its optional absolute expiry (`INCR`
creates a key without a TTL; `EXPIRE` attaches one). -/
abbrev CounterState := Option (Nat × Option Int)

/-- A key whose TTL has elapsed behaves as absent (Redis removes it). -/
def counter_live (now : Int) : CounterState → CounterState
  | none => none
  | some (c, none) => some (c, none)
  | some (c, some e) => if now < e then some (c, some e) else none

/-- Redis `INCR`: atomically create the key at 1 (with no TTL) or add one,
returning the new count; the TTL of an existing key is untouched. -/
def redis_incr (st : CounterState) (now : Int) : Nat × (Nat × Option Int) :=
  match counter_live now st with
  | none => (1, (1, none))
  | some (c, e) => (c + 1, (c + 1, e))

/-- Redis `EXPIRE key 60` at time `now`. -/
def redis_expire (st : Nat × Option Int) (now : Int) : Nat × Option Int :=
  (st.1, some (now + 60))

/-- The `rate_limit` dependency (`app/routes/contacts.py` lines 23-51):
increment the per-client counter, attach the 60-second TTL only when the
increment returned 1, then reject with 429 `Too many requests. Please try
again later.` when the count exceeds 5. -/
def rate_limit (now : Int) (st : CounterState) :
    Except PyError Unit × (Nat × Option Int) :=
  let r := redis_incr st now
  let current_requests := r.1
  let st1 := if current_requests == 1 then redis_expire r.2 now else r.2
  if current_requests > 5 then
    (.error (.http { statusCode := 429,
                     detail := "Too many requests. Please try again later." }), st1)
  else
    (.ok (), st1)

/-- The state of the rate-limit counter after the `k+1`-st request of a
burst, all arriving at time `now` with the key initially absent, together
with that request's outcome. -/
def rate_run (now : Int) : Nat → Except PyError Unit × (Nat × Option Int)
  | 0 => rate_limit now none
  | k + 1 => rate_limit now (some (rate_run now k).2)

/-- The count the client observes before an increment: 0 when the key is
absent or expired. -/
def live_count (now : Int) (st : CounterState) : Nat :=
  match counter_live now st with
  | none => 0
  | some (c, _) => c

/-- The TTL attached to the live key, if any. -/
def live_ttl (now : Int) (st : CounterState) : Option Int :=
  match counter_live now st with
  | none => none
  | some (_, e) => e

end GoitHW11

namespace GoitHW11

/-- A database update that does not touch the email column commutes with
lookup by email. -/
lemma get_user_by_email_map (e : String) (db : Db) (g : User → User)
    (hg : ∀ v, (g v).email = v.email) :
    get_user_by_email e (db.map g) = (get_user_by_email e db).map g := by
  induction db with
  | nil => rfl
  | cons v tl ih =>
      unfold get_user_by_email at *
      simp only [List.map_cons]
      by_cases hv : ((g v).email == e) = true
      · have hv' : (v.email == e) = true := by rw [hg v] at hv; exact hv
        rw [List.find?_cons_of_pos (p := fun (u : User) => u.email == e) _ hv,
          List.find?_cons_of_pos (p := fun (u : User) => u.email == e) _ hv']
        rfl
      · have hv' : ¬ (v.email == e) = true := by rw [hg v] at hv; exact hv
        rw [List.find?_cons_of_neg (p := fun (u : User) => u.email == e) _ hv,
          List.find?_cons_of_neg (p := fun (u : User) => u.email == e) _ hv']
        exact ih

/-- A successful lookup by email returns a row with that email. -/
lemma user_email_of_find {e : String} {db : Db} {u : User}
    (h : get_user_by_email e db = some u) : u.email = e := by
  have := List.find?_some h
  simpa using this

/-- Claim C6, counterexample: the hasher's verify raises passlib's
`UnknownHashError` on a string that is not a recognizable bcrypt hash — it
does not return `false`. -/
theorem C6_counterexample :
    verify_password "secret123" "nothash" = .error .unknownHash ∧
    verify_password "secret123" "nothash" ≠ .ok false := by
  decide

/-- Claim C6 as amended: for every plain password and candidate hash
string, verify returns a boolean when the hash is identifiable as a bcrypt
hash, and on a malformed hash string it raises `UnknownHashError`
(propagated uncaught by `verify_password`) rather than returning false;
verifying a password against its own hash returns true. -/
theorem C6_verify_password_total (plain h : String) :
    (is_bcrypt_hash h = true → ∃ b, verify_password plain h = .ok b) ∧
    (is_bcrypt_hash h = false → verify_password plain h = .error .unknownHash) ∧
    verify_password plain (get_password_hash plain) = .ok true := by
  refine ⟨fun hw => ⟨h == get_password_hash plain, ?_⟩, fun hm => ?_, ?_⟩
  · simp [verify_password, pwd_context_verify, hw]
  · simp [verify_password, pwd_context_verify, hm]
  · have hok : is_bcrypt_hash (get_password_hash plain) = true := by
      simp [is_bcrypt_hash, get_password_hash, String.data_append,
        List.isPrefixOf_iff_prefix]
    simp [verify_password, pwd_context_verify, hok]

/-- Witness for C6 at concrete inputs: a well-formed bcrypt hash string
yields a boolean verdict. -/
theorem C6_verify_password_total_witness :
    is_bcrypt_hash "$2b$12$abc" = true ∧
    (∃ b, verify_password "pw" "$2b$12$abc" = .ok b) :=
  ⟨by decide, (C6_verify_password_total "pw" "$2b$12$abc").1 (by decide)⟩

/-- Claim C9, failing behavior at the failing input: for an existing email
the route raises `AttributeError` at the `add_task` argument
`user.username` (line 164) before the task is enqueued — an unhandled 500 —
while a non-existing email receives the generic 200 success message; the
two responses differ and no reset email is ever dispatched, contradicting
the claimed uniformity and the route's own anti-enumeration comment. -/
theorem C9_reset_request_divergence :
    (request_password_reset "k" "HS256" 0 "a@x.com"
        [{ id := 1, email := "a@x.com", password := "$2b$12$pw",
           created_at := 0, avatar := none, refresh_token := none }]).1 =
      .error (.attributeError "username") ∧
    (request_password_reset "k" "HS256" 0 "a@x.com"
        [{ id := 1, email := "a@x.com", password := "$2b$12$pw",
           created_at := 0, avatar := none, refresh_token := none }]).2 = [] ∧
    request_password_reset "k" "HS256" 0 "b@x.com"
        [{ id := 1, email := "a@x.com", password := "$2b$12$pw",
           created_at := 0, avatar := none, refresh_token := none }] =
      (.ok "If a user with this email exists, a password reset token has been sent.",
       []) ∧
    (request_password_reset "k" "HS256" 0 "a@x.com"
        [{ id := 1, email := "a@x.com", password := "$2b$12$pw",
           created_at := 0, avatar := none, refresh_token := none }]).1 ≠
      (request_password_reset "k" "HS256" 0 "b@x.com"
        [{ id := 1, email := "a@x.com", password := "$2b$12$pw",
           created_at := 0, avatar := none, refresh_token := none }]).1 := by
  decide

/-- Claim C3: for every subject `s` and scope `c`, verifying a token issued
for `s` with scope `c` against expected scope `c` succeeds and returns `s`,
and verifying it against any expected scope `c'` different from `c` fails
with that verifier's scope-mismatch error rather than succeeding.  The
verification happens at any time `now` at which the token is not yet expired
(`now ≤ t + 900` covers all four default lifetimes). -/
theorem C3_scope_check (key alg s : String) (t now : Int) (c c' : Scope)
    (h : now ≤ t + 900) :
    (c' = c → verify_for c' key alg now (issue_for c key alg t s none) = .ok s) ∧
    (c' ≠ c → verify_for c' key alg now (issue_for c key alg t s none) =
      .error (.http (scope_mismatch_error c'))) := by
  have h1 : ¬ (t + 900 < now) := by omega
  have h2 : ¬ (t + 604800 < now) := by omega
  constructor
  · rintro rfl
    cases c' <;>
      simp [verify_for, issue_for, create_access_token, create_refresh_token,
        create_email_token, create_reset_token, jwt_encode, jwt_decode, pyTruthy,
        decode_access_token, decode_refresh_token, get_email_from_token,
        get_email_from_reset_token, h1, h2]
  · intro hne
    cases c <;> cases c' <;>
      first
        | exact absurd rfl hne
        | simp [verify_for, issue_for, create_access_token, create_refresh_token,
            create_email_token, create_reset_token, jwt_encode, jwt_decode, pyTruthy,
            decode_access_token, decode_refresh_token, get_email_from_token,
            get_email_from_reset_token, scope_mismatch_error, credentials_exception,
            h1, h2]

/-- Witness for C3 at concrete inputs: a refresh-scoped token verifies as a
refresh token and is rejected by the access-token verifier. -/
theorem C3_scope_check_witness :
    ((0 : Int) ≤ 0 + 900) ∧
    verify_for .refresh "k" "HS256" 0
      (issue_for .refresh "k" "HS256" 0 "a@x.com" none) = .ok "a@x.com" ∧
    verify_for .access "k" "HS256" 0
      (issue_for .refresh "k" "HS256" 0 "a@x.com" none) =
      .error (.http (scope_mismatch_error .access)) :=
  ⟨by decide,
   (C3_scope_check "k" "HS256" "a@x.com" 0 0 .refresh .refresh (by decide)).1 rfl,
   (C3_scope_check "k" "HS256" "a@x.com" 0 0 .refresh .access (by decide)).2 (by decide)⟩

/-- Claim C4, counterexample: an explicit lifetime override of `0` seconds
does not replace the default — `if expires_delta:` is falsy for `0`, so the
access token minted with override `0` at time `0` expires at `900`
(issued-at plus the 15-minute default), not at `0`. -/
theorem C4_counterexample :
    (create_access_token "k" "HS256" 0 "s" (some 0)).payload.exp = 900 ∧
    ¬ (create_access_token "k" "HS256" 0 "s" (some 0)).payload.exp = 0 + 0 := by
  decide

/-- Claim C4 as amended: with no override the expiry is issued-at plus the
scope default (access 15 min, refresh 7 days, email-verification 15 min,
password-reset 15 min); a nonzero override of `d` seconds yields expiry
issued-at plus `d`; but an override of `0` seconds is treated like an absent
override (Python truthiness) and the default applies. -/
theorem C4_token_ttl (key alg s : String) (now d : Int) (hd : d ≠ 0) :
    ((create_access_token key alg now s none).payload.exp = now + 900 ∧
     (create_access_token key alg now s (some 0)).payload.exp = now + 900 ∧
     (create_access_token key alg now s (some d)).payload.exp = now + d ∧
     (create_access_token key alg now s none).payload.iat = now ∧
     (create_access_token key alg now s (some d)).payload.iat = now) ∧
    ((create_refresh_token key alg now s none).payload.exp = now + 604800 ∧
     (create_refresh_token key alg now s (some 0)).payload.exp = now + 604800 ∧
     (create_refresh_token key alg now s (some d)).payload.exp = now + d ∧
     (create_refresh_token key alg now s none).payload.iat = now ∧
     (create_refresh_token key alg now s (some d)).payload.iat = now) ∧
    ((create_email_token key alg now s none).payload.exp = now + 900 ∧
     (create_email_token key alg now s (some 0)).payload.exp = now + 900 ∧
     (create_email_token key alg now s (some d)).payload.exp = now + d ∧
     (create_email_token key alg now s none).payload.iat = now ∧
     (create_email_token key alg now s (some d)).payload.iat = now) ∧
    ((create_reset_token key alg now s none).payload.exp = now + 900 ∧
     (create_reset_token key alg now s (some 0)).payload.exp = now + 900 ∧
     (create_reset_token key alg now s (some d)).payload.exp = now + d ∧
     (create_reset_token key alg now s none).payload.iat = now ∧
     (create_reset_token key alg now s (some d)).payload.iat = now) := by
  simp [create_access_token, create_refresh_token, create_email_token,
    create_reset_token, jwt_encode, pyTruthy, hd]

/-- Witness for C4 at concrete inputs: a 60-second override on an access
token issued at time `0` yields expiry `0 + 60`. -/
theorem C4_token_ttl_witness :
    ((60 : Int) ≠ 0) ∧
    (create_access_token "k" "HS256" 0 "s" (some 60)).payload.exp = 0 + 60 :=
  ⟨by decide, (C4_token_ttl "k" "HS256" "s" 0 60 (by decide)).1.2.2.1⟩

/-- After `k+1` requests in one burst the counter holds `k+1` with the
window fixed at 60 seconds from the first request. -/
lemma rate_run_state (now : Int) (k : Nat) :
    (rate_run now k).2 = (k + 1, some (now + 60)) := by
  induction k with
  | zero => simp [rate_run, rate_limit, redis_incr, counter_live, redis_expire]
  | succ k ih =>
      have hlt : now < now + 60 := by omega
      have hne : ¬ (k + 1 + 1 = 1) := by omega
      simp [rate_run, ih, rate_limit, redis_incr, counter_live, redis_expire,
        hlt, hne, apply_ite Prod.snd]

/-- Requests 1 through 5 of a burst pass the limiter. -/
lemma rate_run_ok (now : Int) (k : Nat) (h : k < 5) :
    (rate_run now k).1 = .ok () := by
  cases k with
  | zero => simp [rate_run, rate_limit, redis_incr, counter_live, redis_expire]
  | succ k =>
      have h1 : ¬ (k + 1 + 1 = 1) := by omega
      have h5 : ¬ (k + 1 + 1 > 5) := by omega
      have hlt : now < now + 60 := by omega
      simp [rate_run, rate_run_state, rate_limit, redis_incr, counter_live,
        redis_expire, h1, h5, hlt, apply_ite Prod.fst]

/-- Requests 6 and later of a burst are rejected. -/
lemma rate_run_err (now : Int) (k : Nat) (h : 5 ≤ k) :
    (rate_run now k).1 =
      .error (.http { statusCode := 429,
                      detail := "Too many requests. Please try again later." }) := by
  cases k with
  | zero => omega
  | succ k =>
      have h1 : ¬ (k + 1 + 1 = 1) := by omega
      have h5 : k + 1 + 1 > 5 := by omega
      have hlt : now < now + 60 := by omega
      simp [rate_run, rate_run_state, rate_limit, redis_incr, counter_live,
        redis_expire, h1, h5, hlt, apply_ite Prod.fst]

/-- Claim C7: the limiter attaches the 60-second expiry exactly when the
increment moves the live count from 0 to 1 (otherwise the existing TTL is
kept, so the window is fixed from the first hit); within one window the
first 5 requests succeed and the 6th and every later one fail with 429; and
once the window has elapsed the counter resets and a new request succeeds
with a fresh window. -/
theorem C7_rate_limit_window :
    (∀ (now : Int) (st : CounterState),
      (redis_incr st now).1 = live_count now st + 1 ∧
      (live_count now st = 0 → ((rate_limit now st).2).2 = some (now + 60)) ∧
      (live_count now st ≠ 0 → ((rate_limit now st).2).2 = live_ttl now st)) ∧
    (∀ (now : Int) (k : Nat),
      (k < 5 → (rate_run now k).1 = .ok ()) ∧
      (5 ≤ k → (rate_run now k).1 =
        .error (.http { statusCode := 429,
                        detail := "Too many requests. Please try again later." }))) ∧
    (∀ (now now' : Int) (k : Nat), now + 60 ≤ now' →
      rate_limit now' (some (rate_run now k).2) = (.ok (), (1, some (now' + 60)))) := by
  refine ⟨fun now st => ?_, fun now k => ⟨rate_run_ok now k, rate_run_err now k⟩,
    fun now now' k h => ?_⟩
  · rcases hst : counter_live now st with _ | ⟨c, e⟩
    · simp [redis_incr, live_count, live_ttl, hst, rate_limit, redis_expire,
        apply_ite Prod.snd]
    · rcases Nat.eq_zero_or_pos c with hc | hc
      · subst hc
        simp [redis_incr, live_count, live_ttl, hst, rate_limit, redis_expire,
          apply_ite Prod.snd]
      · have h1 : ¬ (c + 1 = 1) := by omega
        have h0 : ¬ (c = 0) := by omega
        simp [redis_incr, live_count, live_ttl, hst, rate_limit, redis_expire,
          h1, h0, apply_ite Prod.snd]
  · have hexp : ¬ (now' < now + 60) := by omega
    simp [rate_run_state, rate_limit, redis_incr, counter_live, redis_expire, hexp]

/-- Witness for C7 at concrete inputs: in a burst at time 0 the 3rd request
succeeds, the 6th fails with 429, and a request at time 60 passes again with
a reset counter. -/
theorem C7_rate_limit_window_witness :
    ((2 : Nat) < 5 ∧ (rate_run 0 2).1 = .ok ()) ∧
    ((5 : Nat) ≤ 5 ∧ (rate_run 0 5).1 =
      .error (.http { statusCode := 429,
                      detail := "Too many requests. Please try again later." })) ∧
    ((0 : Int) + 60 ≤ 60 ∧
      rate_limit 60 (some (rate_run 0 5).2) = (.ok (), (1, some (60 + 60)))) :=
  ⟨⟨by decide, (C7_rate_limit_window.2.1 0 2).1 (by decide)⟩,
   ⟨by decide, (C7_rate_limit_window.2.1 0 5).2 (by decide)⟩,
   ⟨by decide, C7_rate_limit_window.2.2 0 60 5 (by decide)⟩⟩

/-- Looking up the email just updated by `update_token` yields the row with
the new refresh token and nothing else changed. -/
lemma get_user_by_email_update_token (e : String) (t : Option Token) (db : Db)
    (u : User) (hu : get_user_by_email e db = some u) :
    get_user_by_email e (update_token e t db) = some { u with refresh_token := t } := by
  rw [update_token,
    get_user_by_email_map e db _ (fun v => by
      by_cases hv : (v.email == e) = true <;> simp [hv])]
  rw [hu]
  simp [user_email_of_find hu]

/-- Looking up the email just updated by `update_password` yields the row
with the new password hash and nothing else changed. -/
lemma get_user_by_email_update_password (e np : String) (db : Db)
    (u : User) (hu : get_user_by_email e db = some u) :
    get_user_by_email e (update_password e np db) = some { u with password := np } := by
  rw [update_password,
    get_user_by_email_map e db _ (fun v => by
      by_cases hv : (v.email == e) = true <;> simp [hv])]
  rw [hu]
  simp [user_email_of_find hu]

/-- A refresh token minted with the default lifetime at time `t` decodes to
its subject at any time up to `t + 604800`. -/
lemma decode_refresh_of_create (key alg e : String) (t now : Int)
    (h : now ≤ t + 604800) :
    decode_refresh_token key alg now (create_refresh_token key alg t e none) = .ok e := by
  have hexp : ¬ (t + 604800 < now) := by omega
  simp [decode_refresh_token, create_refresh_token, jwt_encode, jwt_decode,
    pyTruthy, hexp]

/-- Refresh tokens minted for the same subject at different times are
different tokens (their `iat` claims differ). -/
lemma create_refresh_ne_of_iat (key alg e : String) (t t' : Int) (h : t ≠ t') :
    create_refresh_token key alg t e none ≠ create_refresh_token key alg t' e none := by
  intro heq
  apply h
  have := congrArg (fun tk => tk.payload.iat) heq
  simpa [create_refresh_token, jwt_encode] using this

/-- The matching branch of the refresh route: decoded subject found and the
stored refresh token equals the presented one. -/
lemma refresh_match (key alg : String) (now : Int) (tok : Token) (db : Db)
    (e : String) (u : User)
    (hdec : decode_refresh_token key alg now tok = .ok e)
    (hu : get_user_by_email e db = some u)
    (hmatch : u.refresh_token = some tok) :
    refresh_token_route key alg now tok db =
      (.ok (create_access_token key alg now e none,
            create_refresh_token key alg now e none),
       update_token e (some (create_refresh_token key alg now e none)) db) := by
  have he : u.email = e := user_email_of_find hu
  simp [refresh_token_route, hdec, hu, hmatch, he]

/-- The mismatch branch of the refresh route: decoded subject found but the
stored refresh token differs from the presented one — the stored token is
cleared and the request rejected. -/
lemma refresh_mismatch (key alg : String) (now : Int) (tok : Token) (db : Db)
    (e : String) (u : User)
    (hdec : decode_refresh_token key alg now tok = .ok e)
    (hu : get_user_by_email e db = some u)
    (hne : u.refresh_token ≠ some tok) :
    refresh_token_route key alg now tok db =
      (.error (.http { statusCode := 401, detail := "Invalid refresh token" }),
       update_token e none db) := by
  have he : u.email = e := user_email_of_find hu
  simp [refresh_token_route, hdec, hu, hne, he]

/-- Claim C8, failing behavior at the failing input: with a valid access
token, a subject absent from the table still gets the generic credentials
exception (that part of the claim holds), but for an existing subject the
miss path raises `AttributeError` at the `user.username` read before the
cache `SET` — nothing is cached, no identity is returned, and an immediate
second call misses again and consults the directory a second time (the
lookup counter goes from 1 to 2). -/
theorem C8_resolve_crash :
    get_current_user "k" "HS256" 0 (create_access_token "k" "HS256" 0 "a@x.com" none)
        ([] : Db) ([] : Cache) 0 =
      (.error (.http credentials_exception), [], 1) ∧
    get_current_user "k" "HS256" 0 (create_access_token "k" "HS256" 0 "a@x.com" none)
        [{ id := 1, email := "a@x.com", password := "$2b$12$pw",
           created_at := 0, avatar := none, refresh_token := none }]
        ([] : Cache) 0 =
      (.error (.attributeError "username"), [], 1) ∧
    get_current_user "k" "HS256" 0 (create_access_token "k" "HS256" 0 "a@x.com" none)
        [{ id := 1, email := "a@x.com", password := "$2b$12$pw",
           created_at := 0, avatar := none, refresh_token := none }]
        ([] : Cache) 1 =
      (.error (.attributeError "username"), [], 2) := by
  refine ⟨?_, ?_, ?_⟩ <;> decide

/-- Claim C5, counterexample: for an existing identity presenting a wrong
password, `login` does not fail with `Invalid credentials` — the statement
`if not user.email_verified:` raises `AttributeError` (the users model maps
no `email_verified` column) before password verification is ever reached. -/
theorem C5_counterexample :
    login "k" "HS256" 0 "a@x.com" "wrongpw"
        [{ id := 1, email := "a@x.com", password := get_password_hash "secret7",
           created_at := 0, avatar := none, refresh_token := none }] [] =
      (.error (.attributeError "email_verified"),
       [{ id := 1, email := "a@x.com", password := get_password_hash "secret7",
          created_at := 0, avatar := none, refresh_token := none }], []) ∧
    verify_password "wrongpw" (get_password_hash "secret7") = .ok false ∧
    (login "k" "HS256" 0 "a@x.com" "wrongpw"
        [{ id := 1, email := "a@x.com", password := get_password_hash "secret7",
           created_at := 0, avatar := none, refresh_token := none }] []).1 ≠
      .error (.http { statusCode := 401, detail := "Invalid credentials" }) := by
  decide

/-- Claim C5 as amended: `login` runs the identity lookup by email first
(failing with 401 `Invalid credentials` when absent); for every existing
identity the email-verified check is evaluated next and raises
`AttributeError` because the users model defines no `email_verified`
column, so password verification is never reached — in particular a login
with a wrong password does not fail with `Invalid credentials`. -/
theorem C5_login_order_crash (key alg : String) (now : Int) (uname pw : String)
    (db : Db) (cache : Cache) :
    (get_user_by_email uname db = none →
      login key alg now uname pw db cache =
        (.error (.http { statusCode := 401, detail := "Invalid credentials" }),
         db, cache)) ∧
    (∀ u, get_user_by_email uname db = some u →
      login key alg now uname pw db cache =
        (.error (.attributeError "email_verified"), db, cache)) := by
  constructor
  · intro hn
    simp [login, hn]
  · intro u hu
    simp [login, hu, user_email_verified]

/-- Witness for C5 at concrete inputs: an existing identity makes login
raise `AttributeError` at the email-verified read. -/
theorem C5_login_order_crash_witness :
    get_user_by_email "a@x.com"
      [{ id := 1, email := "a@x.com", password := get_password_hash "secret7",
         created_at := 0, avatar := none, refresh_token := none }] =
      some { id := 1, email := "a@x.com", password := get_password_hash "secret7",
             created_at := 0, avatar := none, refresh_token := none } ∧
    login "k" "HS256" 0 "a@x.com" "wrongpw"
        [{ id := 1, email := "a@x.com", password := get_password_hash "secret7",
           created_at := 0, avatar := none, refresh_token := none }] [] =
      (.error (.attributeError "email_verified"),
       [{ id := 1, email := "a@x.com", password := get_password_hash "secret7",
          created_at := 0, avatar := none, refresh_token := none }], []) :=
  ⟨by decide,
   (C5_login_order_crash "k" "HS256" 0 "a@x.com" "wrongpw"
      [{ id := 1, email := "a@x.com", password := get_password_hash "secret7",
         created_at := 0, avatar := none, refresh_token := none }] []).2
     { id := 1, email := "a@x.com", password := get_password_hash "secret7",
       created_at := 0, avatar := none, refresh_token := none } (by decide)⟩

/-- Claim C1, counterexample: when the rotation happens in the same second
the old token was minted, the rotated token is byte-identical to the old
one, so a second refresh presenting the old token succeeds instead of
failing — the stored refresh token was mint-time 0, the first refresh at
time 0 stores the very same token again, and the replay at time 1 is
accepted. -/
theorem C1_counterexample :
    (refresh_token_route "k" "HS256" 0
        (create_refresh_token "k" "HS256" 0 "a@x.com" none)
        [{ id := 1, email := "a@x.com",
           password := "$2b$12$pw", created_at := 0, avatar := none,
           refresh_token := some (create_refresh_token "k" "HS256" 0 "a@x.com" none) }]).1 =
      .ok (create_access_token "k" "HS256" 0 "a@x.com" none,
           create_refresh_token "k" "HS256" 0 "a@x.com" none) ∧
    (refresh_token_route "k" "HS256" 1
        (create_refresh_token "k" "HS256" 0 "a@x.com" none)
        (refresh_token_route "k" "HS256" 0
          (create_refresh_token "k" "HS256" 0 "a@x.com" none)
          [{ id := 1, email := "a@x.com",
             password := "$2b$12$pw", created_at := 0, avatar := none,
             refresh_token := some (create_refresh_token "k" "HS256" 0 "a@x.com" none) }]).2).1 =
      .ok (create_access_token "k" "HS256" 1 "a@x.com" none,
           create_refresh_token "k" "HS256" 1 "a@x.com" none) ∧
    (refresh_token_route "k" "HS256" 1
        (create_refresh_token "k" "HS256" 0 "a@x.com" none)
        (refresh_token_route "k" "HS256" 0
          (create_refresh_token "k" "HS256" 0 "a@x.com" none)
          [{ id := 1, email := "a@x.com",
             password := "$2b$12$pw", created_at := 0, avatar := none,
             refresh_token := some (create_refresh_token "k" "HS256" 0 "a@x.com" none) }]).2).1 ≠
      .error (.http { statusCode := 401, detail := "Invalid refresh token" }) := by
  decide

/-- Claim C1 as amended: a presented refresh token that verifies with scope
refresh and whose decoded subject resolves to an identity, but differs from
the identity's stored refresh token, is rejected with `Invalid refresh
token` and the stored token is cleared; consequently, when the successful
refresh happens at a timestamp different from the old token's mint time (so
the rotated token really differs from the old one), a later refresh with
the old token fails and clears the stored token, after which a refresh with
the newly issued token also fails. -/
theorem C1_refresh_replay_revocation :
    (∀ (key alg : String) (now : Int) (tok : Token) (db : Db) (e : String) (u : User),
      decode_refresh_token key alg now tok = .ok e →
      get_user_by_email e db = some u →
      u.refresh_token ≠ some tok →
      refresh_token_route key alg now tok db =
        (.error (.http { statusCode := 401, detail := "Invalid refresh token" }),
         update_token e none db) ∧
      get_user_by_email e (refresh_token_route key alg now tok db).2 =
        some { u with refresh_token := none }) ∧
    (∀ (key alg e : String) (t0 t1 t2 t3 : Int) (db : Db) (u : User),
      get_user_by_email e db = some u →
      u.refresh_token = some (create_refresh_token key alg t0 e none) →
      t0 < t1 → t1 ≤ t2 → t2 ≤ t0 + 604800 → t2 ≤ t3 → t3 ≤ t1 + 604800 →
      (refresh_token_route key alg t1 (create_refresh_token key alg t0 e none) db).1 =
        .ok (create_access_token key alg t1 e none,
             create_refresh_token key alg t1 e none) ∧
      (refresh_token_route key alg t2 (create_refresh_token key alg t0 e none)
          (refresh_token_route key alg t1
            (create_refresh_token key alg t0 e none) db).2).1 =
        .error (.http { statusCode := 401, detail := "Invalid refresh token" }) ∧
      get_user_by_email e
          (refresh_token_route key alg t2 (create_refresh_token key alg t0 e none)
            (refresh_token_route key alg t1
              (create_refresh_token key alg t0 e none) db).2).2 =
        some { u with refresh_token := none } ∧
      (refresh_token_route key alg t3 (create_refresh_token key alg t1 e none)
          (refresh_token_route key alg t2 (create_refresh_token key alg t0 e none)
            (refresh_token_route key alg t1
              (create_refresh_token key alg t0 e none) db).2).2).1 =
        .error (.http { statusCode := 401, detail := "Invalid refresh token" })) := by
  constructor
  · intro key alg now tok db e u hdec hu hne
    have step := refresh_mismatch key alg now tok db e u hdec hu hne
    refine ⟨step, ?_⟩
    rw [step]
    exact get_user_by_email_update_token e none db u hu
  · intro key alg e t0 t1 t2 t3 db u hu hst h01 h12 h2 h23 h3
    have d1 : decode_refresh_token key alg t1 (create_refresh_token key alg t0 e none) =
        .ok e := decode_refresh_of_create key alg e t0 t1 (by omega)
    have step1 := refresh_match key alg t1 (create_refresh_token key alg t0 e none)
      db e u d1 hu hst
    have look1 : get_user_by_email e
        (refresh_token_route key alg t1 (create_refresh_token key alg t0 e none) db).2 =
        some { u with refresh_token := some (create_refresh_token key alg t1 e none) } := by
      rw [step1]
      exact get_user_by_email_update_token e _ db u hu
    have d2 : decode_refresh_token key alg t2 (create_refresh_token key alg t0 e none) =
        .ok e := decode_refresh_of_create key alg e t0 t2 (by omega)
    have hne1 :
        ({ u with
            refresh_token := some (create_refresh_token key alg t1 e none) } :
          User).refresh_token ≠
        some (create_refresh_token key alg t0 e none) := by
      intro heq
      exact create_refresh_ne_of_iat key alg e t1 t0 (by omega) (Option.some.inj heq)
    have step2 := refresh_mismatch key alg t2 (create_refresh_token key alg t0 e none)
      _ e _ d2 look1 hne1
    have look2 : get_user_by_email e
        (refresh_token_route key alg t2 (create_refresh_token key alg t0 e none)
          (refresh_token_route key alg t1
            (create_refresh_token key alg t0 e none) db).2).2 =
        some { u with refresh_token := none } := by
      rw [step2]
      exact get_user_by_email_update_token e none _
        { u with refresh_token := some (create_refresh_token key alg t1 e none) } look1
    have d3 : decode_refresh_token key alg t3 (create_refresh_token key alg t1 e none) =
        .ok e := decode_refresh_of_create key alg e t1 t3 (by omega)
    have hne2 : ({ u with refresh_token := none } : User).refresh_token ≠
        some (create_refresh_token key alg t1 e none) := by simp
    have step3 := refresh_mismatch key alg t3 (create_refresh_token key alg t1 e none)
      _ e _ d3 look2 hne2
    exact ⟨by rw [step1], by rw [step2], look2, by rw [step3]⟩

/-- Witness for C1 at concrete inputs: a replay of the rotated-away token at
time 2 is rejected and the stored token cleared, and the token issued by the
rotation at time 1 is itself rejected at time 3. -/
theorem C1_refresh_replay_revocation_witness :
    get_user_by_email "a@x.com"
      [{ id := 1, email := "a@x.com",
         password := "$2b$12$pw", created_at := 0, avatar := none,
         refresh_token := some (create_refresh_token "k" "HS256" 0 "a@x.com" none) }] =
      some { id := 1, email := "a@x.com",
             password := "$2b$12$pw", created_at := 0, avatar := none,
             refresh_token := some (create_refresh_token "k" "HS256" 0 "a@x.com" none) } ∧
    ((refresh_token_route "k" "HS256" 2 (create_refresh_token "k" "HS256" 0 "a@x.com" none)
        (refresh_token_route "k" "HS256" 1
          (create_refresh_token "k" "HS256" 0 "a@x.com" none)
          [{ id := 1, email := "a@x.com",
             password := "$2b$12$pw", created_at := 0, avatar := none,
             refresh_token := some (create_refresh_token "k" "HS256" 0 "a@x.com" none) }]).2).1 =
      .error (.http { statusCode := 401, detail := "Invalid refresh token" }) ∧
     (refresh_token_route "k" "HS256" 3 (create_refresh_token "k" "HS256" 1 "a@x.com" none)
        (refresh_token_route "k" "HS256" 2
          (create_refresh_token "k" "HS256" 0 "a@x.com" none)
          (refresh_token_route "k" "HS256" 1
            (create_refresh_token "k" "HS256" 0 "a@x.com" none)
            [{ id := 1, email := "a@x.com",
               password := "$2b$12$pw", created_at := 0, avatar := none,
               refresh_token := some (create_refresh_token "k" "HS256" 0 "a@x.com" none) }]).2).2).1 =
      .error (.http { statusCode := 401, detail := "Invalid refresh token" })) :=
  ⟨by decide,
   (C1_refresh_replay_revocation.2 "k" "HS256" "a@x.com" 0 1 2 3
      [{ id := 1, email := "a@x.com",
         password := "$2b$12$pw", created_at := 0, avatar := none,
         refresh_token := some (create_refresh_token "k" "HS256" 0 "a@x.com" none) }]
      { id := 1, email := "a@x.com",
        password := "$2b$12$pw", created_at := 0, avatar := none,
        refresh_token := some (create_refresh_token "k" "HS256" 0 "a@x.com" none) }
      (by decide) (by decide) (by decide) (by decide) (by decide) (by decide)
      (by decide)).2.1,
   (C1_refresh_replay_revocation.2 "k" "HS256" "a@x.com" 0 1 2 3
      [{ id := 1, email := "a@x.com",
         password := "$2b$12$pw", created_at := 0, avatar := none,
         refresh_token := some (create_refresh_token "k" "HS256" 0 "a@x.com" none) }]
      { id := 1, email := "a@x.com",
        password := "$2b$12$pw", created_at := 0, avatar := none,
        refresh_token := some (create_refresh_token "k" "HS256" 0 "a@x.com" none) }
      (by decide) (by decide) (by decide) (by decide) (by decide) (by decide)
      (by decide)).2.2.2⟩

/-- Claim C2, counterexample: a refresh performed in the same second the
stored token was minted succeeds and stores a byte-identical token, so the
previously stored value is still the stored token after the call. -/
theorem C2_counterexample :
    (refresh_token_route "k" "HS256" 0
        (create_refresh_token "k" "HS256" 0 "a@x.com" none)
        [{ id := 1, email := "a@x.com",
           password := "$2b$12$pw", created_at := 0, avatar := none,
           refresh_token := some (create_refresh_token "k" "HS256" 0 "a@x.com" none) }]).1 =
      .ok (create_access_token "k" "HS256" 0 "a@x.com" none,
           create_refresh_token "k" "HS256" 0 "a@x.com" none) ∧
    (refresh_token_route "k" "HS256" 0
        (create_refresh_token "k" "HS256" 0 "a@x.com" none)
        [{ id := 1, email := "a@x.com",
           password := "$2b$12$pw", created_at := 0, avatar := none,
           refresh_token := some (create_refresh_token "k" "HS256" 0 "a@x.com" none) }]).2 =
      [{ id := 1, email := "a@x.com",
         password := "$2b$12$pw", created_at := 0, avatar := none,
         refresh_token := some (create_refresh_token "k" "HS256" 0 "a@x.com" none) }] := by
  decide

/-- Claim C2 as amended: when the stored refresh token equals the presented
one, refresh succeeds with a newly minted access/refresh pair whose subjects
are the identity's email, and stores the newly minted refresh token; and
whenever the mint time of the rotation differs from the presented token's
`iat` (so the new token differs from the old one), the previously stored
value is no longer the stored token after the call. -/
theorem C2_refresh_rotation (key alg : String) (now : Int) (tok : Token)
    (db : Db) (e : String) (u : User)
    (hdec : decode_refresh_token key alg now tok = .ok e)
    (hu : get_user_by_email e db = some u)
    (hmatch : u.refresh_token = some tok) :
    refresh_token_route key alg now tok db =
      (.ok (create_access_token key alg now e none,
            create_refresh_token key alg now e none),
       update_token e (some (create_refresh_token key alg now e none)) db) ∧
    (create_access_token key alg now e none).payload.sub = e ∧
    (create_refresh_token key alg now e none).payload.sub = e ∧
    get_user_by_email e (refresh_token_route key alg now tok db).2 =
      some { u with refresh_token := some (create_refresh_token key alg now e none) } ∧
    (tok.payload.iat ≠ now →
      ({ u with
          refresh_token := some (create_refresh_token key alg now e none) } :
        User).refresh_token ≠
        some tok) := by
  have step := refresh_match key alg now tok db e u hdec hu hmatch
  refine ⟨step, rfl, rfl, ?_, fun hiat heq => ?_⟩
  · rw [step]
    exact get_user_by_email_update_token e _ db u hu
  · apply hiat
    simp only [Option.some.injEq] at heq
    rw [← heq]
    simp [create_refresh_token, jwt_encode]

/-- Witness for C2 at concrete inputs: a refresh at time 5 of a token minted
at time 0 rotates the stored token to the newly minted one, which differs
from the old stored value. -/
theorem C2_refresh_rotation_witness :
    decode_refresh_token "k" "HS256" 5
      (create_refresh_token "k" "HS256" 0 "a@x.com" none) = .ok "a@x.com" ∧
    (refresh_token_route "k" "HS256" 5
        (create_refresh_token "k" "HS256" 0 "a@x.com" none)
        [{ id := 1, email := "a@x.com",
           password := "$2b$12$pw", created_at := 0, avatar := none,
           refresh_token := some (create_refresh_token "k" "HS256" 0 "a@x.com" none) }]).1 =
      .ok (create_access_token "k" "HS256" 5 "a@x.com" none,
           create_refresh_token "k" "HS256" 5 "a@x.com" none) ∧
    ({ id := 1, email := "a@x.com",
       password := "$2b$12$pw", created_at := 0, avatar := none,
       refresh_token := some (create_refresh_token "k" "HS256" 5 "a@x.com" none) } : User).refresh_token ≠
      some (create_refresh_token "k" "HS256" 0 "a@x.com" none) :=
  ⟨by decide,
   by rw [(C2_refresh_rotation "k" "HS256" 5
      (create_refresh_token "k" "HS256" 0 "a@x.com" none)
      [{ id := 1, email := "a@x.com",
         password := "$2b$12$pw", created_at := 0, avatar := none,
         refresh_token := some (create_refresh_token "k" "HS256" 0 "a@x.com" none) }] "a@x.com"
      { id := 1, email := "a@x.com",
        password := "$2b$12$pw", created_at := 0, avatar := none,
        refresh_token := some (create_refresh_token "k" "HS256" 0 "a@x.com" none) } (by decide) (by decide) (by decide)).1],
   (C2_refresh_rotation "k" "HS256" 5
      (create_refresh_token "k" "HS256" 0 "a@x.com" none)
      [{ id := 1, email := "a@x.com",
         password := "$2b$12$pw", created_at := 0, avatar := none,
         refresh_token := some (create_refresh_token "k" "HS256" 0 "a@x.com" none) }] "a@x.com"
      { id := 1, email := "a@x.com",
        password := "$2b$12$pw", created_at := 0, avatar := none,
        refresh_token := some (create_refresh_token "k" "HS256" 0 "a@x.com" none) } (by decide) (by decide) (by decide)).2.2.2.2
     (by decide)⟩

/-- Claim C10, failing behavior at the failing input: a valid
password-reset token decodes to its subject, but the route awaits the
synchronous `get_email_from_reset_token`, so `await` on the returned string
raises `TypeError` before any lookup or write — the table (and in it the
password hash and the stored refresh token) is returned unchanged, and no
reset ever succeeds. -/
theorem C10_reset_password_crash :
    get_email_from_reset_token "k" "HS256" 0
      (create_reset_token "k" "HS256" 0 "a@x.com" none) = .ok "a@x.com" ∧
    reset_password "k" "HS256" 0 (create_reset_token "k" "HS256" 0 "a@x.com" none)
        "newpass7"
        [{ id := 1, email := "a@x.com", password := get_password_hash "secret7",
           created_at := 0, avatar := none,
           refresh_token := some (create_refresh_token "k" "HS256" 0 "a@x.com" none) }] =
      (.error (.typeError "str cannot be used in await expression"),
       [{ id := 1, email := "a@x.com", password := get_password_hash "secret7",
          created_at := 0, avatar := none,
          refresh_token := some (create_refresh_token "k" "HS256" 0 "a@x.com" none) }]) := by
  decide

end GoitHW11
